import Mathlib

/-!
Verification of the sales tool-routing and aggregation core of the
idt-chatbot repository against its natural-language specification.

The TypeScript sources are shallowly embedded: JavaScript numbers that hold
money, prices and vector coordinates are modelled as `ℚ`, timestamps
(`Date` values produced by `new Date(isoString)`) as `ℤ`, and optional /
nullable tool parameters as `Option`.  External runtime facilities that the
core merely calls through (number formatting via `toLocaleString` /
`toFixed`, `Date.toISOString`, `JSON.stringify`, the raw `date_trunc` trend
SQL, the embedding model and the pgvector `<=>` operator) are passed in as
explicit function parameters, so every theorem is parametric in them.

The relational store is modelled as a `List Sale`; a Prisma `findMany` with
a `where` clause is `List.filter`, `orderBy` is `List.insertionSort`, and
`aggregate` / `count` are list sums and lengths.
-/

/-- Boolean test that `pat` is a prefix of the character list. -/
def charsIsPrefix : List Char → List Char → Bool
  | [], _ => true
  | _ :: _, [] => false
  | a :: as, b :: bs => a == b && charsIsPrefix as bs

/-- Boolean test that `pat` occurs contiguously in the character list. -/
def charsIsInfix (pat : List Char) : List Char → Bool
  | [] => pat.isEmpty
  | c :: rest => charsIsPrefix pat (c :: rest) || charsIsInfix pat rest

/-- ASCII lower-casing (JS `toLowerCase()`), character by character. -/
def strLower (s : String) : String :=
  String.mk (s.data.map Char.toLower)

/-- ASCII upper-casing (JS `toUpperCase()`), character by character. -/
def strUpper (s : String) : String :=
  String.mk (s.data.map Char.toUpper)

/-- ASCII whitespace test for `strTrim`. -/
def isWSpaceChar (c : Char) : Bool :=
  c == ' ' || c == '\t' || c == '\n' || c == '\r'

/-- JS `String.prototype.trim()`: strip leading and trailing whitespace. -/
def strTrim (s : String) : String :=
  String.mk
    (((s.data.dropWhile isWSpaceChar).reverse.dropWhile isWSpaceChar).reverse)

/-- JavaScript `hay.includes(pat)` / Prisma `contains` (case-sensitive). -/
def containsSub (hay pat : String) : Bool :=
  charsIsInfix pat.data hay.data

/-- Prisma `contains` with `mode: "insensitive"`. -/
def containsCI (hay pat : String) : Bool :=
  containsSub (strLower hay) (strLower pat)

/-- JavaScript truthiness of an optional string argument: `undefined`,
`null` and the empty string are all falsy, so `if (params.x)` skips the
filter for `some ""` exactly as it does for `none`. -/
def truthy : Option String → Option String
  | some "" => none
  | o => o

/-- Sort relation "descending by the key `f`", as produced by a Prisma
`orderBy: { field: "desc" }` clause or a JS comparator `(a, b) => fb - fa`. -/
def byKeyDesc {α β : Type} [LinearOrder β] (f : α → β) : α → α → Prop :=
  fun a b => f b ≤ f a

/-- Sort relation "ascending by the key `f`" (SQL `ORDER BY f` default). -/
def byKeyAsc {α β : Type} [LinearOrder β] (f : α → β) : α → α → Prop :=
  fun a b => f a ≤ f b

instance {α β : Type} [LinearOrder β] (f : α → β) : DecidableRel (byKeyDesc f) :=
  fun a b => inferInstanceAs (Decidable (f b ≤ f a))

instance {α β : Type} [LinearOrder β] (f : α → β) : DecidableRel (byKeyAsc f) :=
  fun a b => inferInstanceAs (Decidable (f a ≤ f b))

instance {α β : Type} [LinearOrder β] (f : α → β) : IsTotal α (byKeyDesc f) :=
  ⟨fun a b => le_total (f b) (f a)⟩

instance {α β : Type} [LinearOrder β] (f : α → β) : IsTotal α (byKeyAsc f) :=
  ⟨fun a b => le_total (f a) (f b)⟩

instance {α β : Type} [LinearOrder β] (f : α → β) : IsTrans α (byKeyDesc f) :=
  ⟨fun _ _ _ h1 h2 => le_trans h2 h1⟩

instance {α β : Type} [LinearOrder β] (f : α → β) : IsTrans α (byKeyAsc f) :=
  ⟨fun _ _ _ h1 h2 => le_trans h1 h2⟩

/-- One row of the `Sales` table (prisma model `Sales`). -/
structure Sale where
  id : String
  customer : String
  invoice : String
  purchaseDate : Int
  address : String
  item : String
  quantity : Int
  price : ℚ
  total : ℚ
  comment : String
  remarks : String
  paymentMethod : String
  embedding : Option (List ℚ) := none
deriving DecidableEq

/-- The `operation` parameter of the `getSalesAnalytics` tool. -/
inductive SAOperation
  | FILTER | SUMMARY | ANALYTICS | TREND
deriving DecidableEq

/-- The `analyticsType` parameter of the `getSalesAnalytics` tool. -/
inductive AnalyticsType
  | TOTAL_SALES | AVERAGE_SALES | SALES_COUNT
deriving DecidableEq

/-- The `groupBy` parameter of the TREND branch of `getSalesAnalytics`. -/
inductive TrendGroupBy
  | DAY | WEEK | MONTH
deriving DecidableEq

/-- Parsed arguments of the `getSalesAnalytics` tool (file
`services/tools.ts`, schema `salesAnalyticsSchema`).  Dates are modelled
after `new Date(isoString)` as integer timestamps. -/
structure SalesAnalyticsParams where
  operation : SAOperation
  startDate : Option Int := none
  endDate : Option Int := none
  paymentMethod : Option String := none
  invoice : Option String := none
  customer : Option String := none
  analyticsType : Option AnalyticsType := none
  groupBy : Option TrendGroupBy := none
  limit : Option Int := some 0
  trendSortBy : Option String := some "totalSales"
  trendOrder : Option String := some "DESC"
deriving DecidableEq

/-- External JavaScript / database runtime facilities used by the tools.
None of the verified properties depend on their behaviour. -/
structure JsRuntime where
  /-- The `Number.toLocaleString("en-US", 2 fraction digits)`. -/
  fmtMoney : ℚ → String
  /-- The `Number.toFixed(2)`. -/
  fmtFixed2 : ℚ → String
  /-- The `Date.toISOString()`. -/
  fmtDate : Int → String
  /-- The TREND branch of `getSalesAnalytics`: a raw `date_trunc` SQL query
  plus JS `Date` period formatting, entirely inside the external store and
  date runtime; no claim depends on its output. -/
  trendOutput : List Sale → String

/-- The `buildDateFilter` semantics (`gte` / `lte` on `purchaseDate`). -/
def matchesDateFilter (start stop : Option Int) (d : Int) : Bool :=
  (match start with
    | none => true
    | some s => s ≤ d)
  && (match stop with
    | none => true
    | some e => d ≤ e)

/-- Where-clause of the FILTER branch of `getSalesAnalytics`: date range,
exact `paymentMethod`, `invoice` substring (case-sensitive `contains`), and
case-insensitive `customer` substring, combined by logical AND. -/
def filterWhere (p : SalesAnalyticsParams) (s : Sale) : Bool :=
  matchesDateFilter p.startDate p.endDate s.purchaseDate
  && (match truthy p.paymentMethod with
    | none => true
    | some pm => s.paymentMethod == pm)
  && (match truthy p.invoice with
    | none => true
    | some inv => containsSub s.invoice inv)
  && (match truthy p.customer with
    | none => true
    | some c => containsCI s.customer c)

/-- Where-clause used by the ANALYTICS branch of `getSalesAnalytics`: only
the date range plus an exact `paymentMethod` match.  The `invoice` and
`customer` parameters are never added to the filter in this branch. -/
def analyticsWhere (p : SalesAnalyticsParams) (s : Sale) : Bool :=
  matchesDateFilter p.startDate p.endDate s.purchaseDate
  && (match truthy p.paymentMethod with
    | none => true
    | some pm => s.paymentMethod == pm)

/-- The `prisma.sales.count` for the payment-method validation probe of the
ANALYTICS branch: the current filter (dates only at that point) plus an
exact `paymentMethod` equality. -/
def paymentMethodCount (p : SalesAnalyticsParams) (pm : String)
    (db : List Sale) : Nat :=
  (db.filter (fun s =>
    matchesDateFilter p.startDate p.endDate s.purchaseDate
    && s.paymentMethod == pm)).length

/-- The `_sum.total || 0` over the ANALYTICS filter. -/
def totalSalesValue (p : SalesAnalyticsParams) (db : List Sale) : ℚ :=
  ((db.filter (analyticsWhere p)).map Sale.total).sum

/-- The `prisma.sales.count` over the ANALYTICS filter. -/
def salesCountValue (p : SalesAnalyticsParams) (db : List Sale) : Nat :=
  (db.filter (analyticsWhere p)).length

/-- The `_avg.total || 0` over the ANALYTICS filter: the SQL average is NULL
when no row matches, which `|| 0` turns into `0`. -/
def averageSalesValue (p : SalesAnalyticsParams) (db : List Sale) : ℚ :=
  let rows := db.filter (analyticsWhere p)
  if rows.length = 0 then 0
  else ((rows.map Sale.total).sum) / (rows.length : ℚ)

/-- The rows the FILTER branch returns: matching rows ordered by
`purchaseDate` descending (`orderBy: { purchaseDate: "desc" }`). -/
def filterRowsOf (p : SalesAnalyticsParams) (db : List Sale) : List Sale :=
  List.insertionSort (byKeyDesc Sale.purchaseDate) (db.filter (filterWhere p))

/-- One-line rendering of a sale in the FILTER branch. -/
def renderFilterLine (jsr : JsRuntime) (s : Sale) : String :=
  "Invoice: " ++ s.invoice ++ ", Customer: " ++ s.customer
    ++ ", PurchaseDate: " ++ jsr.fmtDate s.purchaseDate
    ++ ", Total: RM " ++ jsr.fmtMoney s.total

/-- Sentinel returned whenever a query matches no rows. -/
def noRecordsMsg : String := "No sales records found for the given filters."

/-- Per-payment-method accumulator of the SUMMARY branch. -/
structure SummaryStats where
  count : Nat
  total : ℚ
deriving DecidableEq

/-- The `prisma.sales.groupBy({ by: ["paymentMethod"], _sum, _count })`,
modelled as a left fold keyed by first appearance. -/
def summaryGroups (p : SalesAnalyticsParams) (db : List Sale) :
    List (String × SummaryStats) :=
  (db.filter (fun s =>
      matchesDateFilter p.startDate p.endDate s.purchaseDate)).foldl
    (fun acc s =>
      match acc.find? (fun q => q.1 = s.paymentMethod) with
      | some _ =>
        acc.map (fun q =>
          if q.1 = s.paymentMethod then
            (q.1, SummaryStats.mk (q.2.count + 1) (q.2.total + s.total))
          else q)
      | none => acc ++ [(s.paymentMethod, SummaryStats.mk 1 s.total)]) []

/-- Rendering of one SUMMARY group. -/
def renderSummaryLine (jsr : JsRuntime) (g : String × SummaryStats) : String :=
  "Payment Method: " ++ g.1 ++ ", Count: " ++ toString g.2.count
    ++ ", Total: RM " ++ jsr.fmtMoney g.2.total

/-- Outcome of an async tool `execute` body: either a returned string or a
thrown `Error` with its message. -/
inductive JsOutcome
  | returns (s : String)
  | throws (msg : String)
deriving DecidableEq

/-- Result of one `execute` call of `getSalesAnalytics`: the returned or
thrown value, plus the number of storage queries issued before returning. -/
structure ExecOut where
  out : JsOutcome
  queries : Nat
deriving DecidableEq

/-- Shallow embedding of `getSalesAnalytics.execute` (file
`services/tools.ts`).  The two guard clauses throw before any storage
access; each branch then mirrors the Prisma calls of the source. -/
def getSalesAnalyticsExecute (jsr : JsRuntime) (p : SalesAnalyticsParams)
    (db : List Sale) : ExecOut :=
  if p.operation = .ANALYTICS ∧ p.analyticsType = none then
    ⟨.throws "analyticsType is required for ANALYTICS operation.", 0⟩
  else if p.operation = .TREND ∧ p.groupBy = none then
    ⟨.throws "groupBy is required for TREND operation.", 0⟩
  else
    match p.operation with
    | .FILTER =>
      let rows := filterRowsOf p db
      if rows.isEmpty then ⟨.returns noRecordsMsg, 1⟩
      else ⟨.returns (String.intercalate "\n" (rows.map (renderFilterLine jsr))), 1⟩
    | .SUMMARY =>
      let groups := summaryGroups p db
      if groups.isEmpty then ⟨.returns noRecordsMsg, 1⟩
      else
        ⟨.returns (String.intercalate "\n" (groups.map (renderSummaryLine jsr))), 1⟩
    | .ANALYTICS =>
      let go : Nat → ExecOut := fun q =>
        match p.analyticsType with
        | some .TOTAL_SALES =>
          ⟨.returns ("Total sales: RM " ++ jsr.fmtMoney (totalSalesValue p db)),
            q + 1⟩
        | some .AVERAGE_SALES =>
          ⟨.returns ("Average sale: RM " ++ jsr.fmtMoney (averageSalesValue p db)),
            q + 1⟩
        | some .SALES_COUNT =>
          ⟨.returns ("Number of sales: " ++ toString (salesCountValue p db)), q + 1⟩
        | none => ⟨.returns "Invalid analytics type provided.", q⟩
      match truthy p.paymentMethod with
      | some pm =>
        if paymentMethodCount p pm db = 0 then
          ⟨.returns ("Payment method '" ++ pm ++ "' is not available."), 1⟩
        else go 1
      | none => go 0
    | .TREND =>
      ⟨.returns (jsr.trendOutput
        (db.filter (fun s =>
          matchesDateFilter p.startDate p.endDate s.purchaseDate))), 1⟩

/-- One row of the `Vector` table: the sale id and its pgvector embedding
(`NULL`-able column). -/
structure VectorEntry where
  id : String
  embedding : Option (List ℚ) := none
deriving DecidableEq

/-- The `ScoredSale` of `services/sales.ts`: a sale id with its cosine distance
to the query embedding. -/
structure ScoredSale where
  id : String
  score : ℚ
deriving DecidableEq

/-- Default `threshold` parameter of `retrieveRelevantSalesRecords`. -/
def defaultDistanceThreshold : ℚ := 7 / 10

/-- Shallow embedding of `retrieveRelevantSalesRecords`
(`services/sales.ts`): embed the upper-cased query text, then run the raw
SQL over the `Vector` table that keeps every non-NULL embedding whose
`<=>` cosine distance to the query embedding is at most the threshold and
orders the hits by that distance ascending.  The embedding model and the
pgvector distance operator are the explicit parameters `embed` and
`dist`. -/
def retrieveRelevantSalesRecords (embed : String → List ℚ)
    (dist : List ℚ → List ℚ → ℚ) (userQuery : String) (threshold : ℚ)
    (vectors : List VectorEntry) : List ScoredSale :=
  let queryEmbedding := embed (strUpper userQuery)
  let maxDistance := threshold
  List.insertionSort (byKeyAsc ScoredSale.score)
    (vectors.filterMap (fun v =>
      match v.embedding with
      | none => none
      | some e =>
        let score := dist e queryEmbedding
        if score ≤ maxDistance then some (ScoredSale.mk v.id score) else none))

/-- Keyword short-circuit test of `retrieveRelevantSales`
(`services/sales.ts`): a lowercased substring check on the raw query. -/
def hasTotalKeyword (userQuery : String) : Bool :=
  containsSub (strLower userQuery) "total sum"
  || containsSub (strLower userQuery) "total sales"
  || containsSub (strLower userQuery) "how much was sold"

/-- Value computed by the keyword fast path:
`prisma.sales.aggregate({ _sum: { total } })` with no filter, then
`?.toFixed(2) || 0` (the SQL sum is NULL only when the table is empty, in
which case the list sum is 0 as well). -/
def fastPathTotal (db : List Sale) : ℚ :=
  (db.map Sale.total).sum

/-- The `cosineSimilarity` of `services/sales.ts`; `Math.sqrt` is the explicit
parameter `sqrt`.  The two embedding vectors have the fixed deployment
dimension, so the index-wise product sum is a `zipWith` sum. -/
def cosineSimilarity (sqrt : ℚ → ℚ) (a b : List ℚ) : ℚ :=
  let dot := (List.zipWith (fun x y => x * y) a b).sum
  let normA := sqrt ((a.map (fun v => v * v)).sum)
  let normB := sqrt ((b.map (fun v => v * v)).sum)
  dot / (normA * normB)

/-- Text rendering of one sale in the semantic branch of
`retrieveRelevantSales`. -/
def renderSaleText (jsr : JsRuntime) (s : Sale) : String :=
  "Invoice: " ++ s.invoice ++ ", Customer: " ++ s.customer
    ++ ", PurchaseDate: " ++ jsr.fmtDate s.purchaseDate
    ++ ", ItemDescription: " ++ s.item
    ++ ", Quantity: " ++ toString s.quantity
    ++ ", PricePerUnit: " ++ toString s.price
    ++ ", Total: " ++ toString s.total
    ++ ", Payment: " ++ s.paymentMethod
    ++ ", CustomerAddress: " ++ s.address
    ++ ", Notes: " ++ s.comment ++ ", " ++ s.remarks

/-- Shallow embedding of `retrieveRelevantSales` (`services/sales.ts`): a
keyword fast path that answers with the unfiltered sum of `total`, and
otherwise a brute-force cosine scoring of every embedded sale, sorted by
similarity descending and truncated to the top ten. -/
def retrieveRelevantSales (jsr : JsRuntime) (sqrt : ℚ → ℚ)
    (embed : String → List ℚ) (userQuery : String) (db : List Sale) :
    String :=
  if hasTotalKeyword userQuery then
    "The total sum of all sales is RM " ++ jsr.fmtFixed2 (fastPathTotal db)
      ++ "."
  else
    let queryEmbedding := embed userQuery
    let scored :=
      (db.filterMap (fun s =>
        match s.embedding with
        | none => none
        | some e =>
          some (renderSaleText jsr s, cosineSimilarity sqrt queryEmbedding e)))
    let sorted :=
      List.insertionSort (byKeyDesc (fun p : String × ℚ => p.2)) scored
    String.intercalate "\n" ((sorted.take 10).map (fun p => p.1))

/-- One parsed CSV row of the upload endpoint
(`app/api/files/upload/route.ts`), with the numeric fields already
converted (`parseInt` / `parseFloat` of the `RM`-stripped strings). -/
structure CsvRow where
  coLastName : String
  addrLine1 : String
  line2 : String
  line3 : String
  line4 : String
  destinationCountry : String
  invoiceNo : String
  quantity : Int
  description : String
  price : ℚ
  total : ℚ
  comment : String
  journalMemo : String
  paymentMethod : String
deriving DecidableEq

/-- Dedup key of a CSV row for the re-import filter (`newCleanData`): the
trimmed invoice, the trimmed description with `"Undefined"` substituted for
the empty string, and the parsed total.  The source interpolates these into
one template string; the triple is the faithful content of that key. -/
def csvDedupKey (r : CsvRow) : String × String × ℚ :=
  (strTrim r.invoiceNo,
    (if strTrim r.description = "" then "Undefined" else strTrim r.description),
    r.total)

/-- Dedup key of an existing `Sales` row (`existingSalesSet`). -/
def saleDedupKey (s : Sale) : String × String × ℚ :=
  (s.invoice, s.item, s.total)

/-- The `itemSanitise` of the insertion phase: the trimmed description,
upper-cased, with `"Undefined"` substituted for the empty string. -/
def itemSanitise (r : CsvRow) : String :=
  if strTrim r.description = "" then "Undefined"
  else strUpper (strTrim r.description)

/-- The `addressSanitise`: the joined optional address lines, with
`"Undefined"` substituted for the empty join. -/
def addressSanitise (r : CsvRow) : String :=
  let parts := [strTrim r.line2, strTrim r.line3, strTrim r.line4,
    strTrim r.destinationCountry].filter (fun x => x ≠ "")
  let address := String.intercalate ", " parts
  if address = "" then "Undefined" else address

/-- The `customer` column of an inserted row. -/
def csvCustomer (r : CsvRow) : String :=
  if containsSub r.addrLine1 r.coLastName then strTrim r.addrLine1
  else strTrim r.addrLine1 ++ ", " ++ strTrim r.coLastName

/-- The `Sales` row the insertion phase creates from one CSV row.  The
generated UUID, timestamps, embedding vector and `purchaseDate` parse are
irrelevant to the dedup invariant and set to fixed placeholders. -/
def rowToSale (r : CsvRow) : Sale :=
  { id := ""
    customer := csvCustomer r
    invoice := strTrim r.invoiceNo
    purchaseDate := 0
    address := addressSanitise r
    item := itemSanitise r
    quantity := r.quantity
    price := r.price
    total := r.total
    comment := strTrim r.comment
    remarks := strTrim r.journalMemo
    paymentMethod :=
      if strTrim r.paymentMethod = "" then "Undefined"
      else strTrim r.paymentMethod
    embedding := none }

/-- Shallow embedding of the dedup-and-insert phase of the CSV upload
endpoint `POST` (`app/api/files/upload/route.ts`): rows whose dedup key is
already in `existingSalesSet` are filtered out, the rest are embedded and
inserted chunk by chunk with `createMany` (the chunking and the transient
P1017 retry loop do not change which rows end up in the table). -/
def ingestCsv (db : List Sale) (rows : List CsvRow) : List Sale :=
  let existingKeys := db.map saleDedupKey
  let newCleanData :=
    rows.filter (fun r => !(existingKeys.contains (csvDedupKey r)))
  db ++ newCleanData.map rowToSale

/-- The `groupBy` parameter of the `getTopAggregates` tool. -/
inductive TopGroupBy
  | ITEM | STATE | CUSTOMER | INVOICE | PAYMENT_METHOD
deriving DecidableEq

/-- The `sortBy` parameter of the `getTopAggregates` tool. -/
inductive TopSortBy
  | TOTAL_SALES | COUNT | QUANTITY
deriving DecidableEq

/-- Parsed arguments of `getTopAggregates` (`services/tools.ts`).  The zod
defaults give `sortBy = TOTAL_SALES` and `limit = 5`, but an explicit
`"null"` argument survives as `none`. -/
structure TopAggregatesParams where
  groupBy : TopGroupBy
  sortBy : Option TopSortBy := some .TOTAL_SALES
  startDate : Option Int := none
  endDate : Option Int := none
  limit : Option Int := some 5
  region : Option String := none
  item : Option String := none
  customer : Option String := none
  invoice : Option String := none
  paymentMethod : Option String := none
deriving DecidableEq

/-- The `filter` object `getTopAggregates` builds: a JS record whose
properties are set only when the corresponding argument is truthy.  The
string filters are all `buildStringFilter` (case-insensitive contains). -/
structure TopFilter where
  purchaseDate : Option (Option Int × Option Int) := none
  address : Option String := none
  customer : Option String := none
  invoice : Option String := none
  paymentMethod : Option String := none
  id : Option (List String) := none
  item : Option String := none
deriving DecidableEq

/-- Property access `filter[key]` on the `filter` record: only the seven
named properties can be present, so any other key — in particular the
numeric key `"0"` read by `filter[0].length` — yields `undefined`. -/
def topFilterIndex (f : TopFilter) (key : String) : Option Unit :=
  if key = "purchaseDate" then f.purchaseDate.map (fun _ => ())
  else if key = "address" then f.address.map (fun _ => ())
  else if key = "customer" then f.customer.map (fun _ => ())
  else if key = "invoice" then f.invoice.map (fun _ => ())
  else if key = "paymentMethod" then f.paymentMethod.map (fun _ => ())
  else if key = "id" then f.id.map (fun _ => ())
  else if key = "item" then f.item.map (fun _ => ())
  else none

/-- The base filter of `getTopAggregates` before the ITEM branch adds the
retrieval ids: optional date range plus optional case-insensitive
substring filters. -/
def buildTopFilter (p : TopAggregatesParams) : TopFilter :=
  { purchaseDate :=
      if p.startDate.isSome || p.endDate.isSome then
        some (p.startDate, p.endDate)
      else none
    address := truthy p.region
    customer := truthy p.customer
    invoice := truthy p.invoice
    paymentMethod := truthy p.paymentMethod }

/-- Where-clause semantics of a `TopFilter` against one sale. -/
def matchesTopFilter (f : TopFilter) (s : Sale) : Bool :=
  (match f.purchaseDate with
    | none => true
    | some (g, l) => matchesDateFilter g l s.purchaseDate)
  && (match f.address with
    | none => true
    | some r => containsCI s.address r)
  && (match f.customer with
    | none => true
    | some c => containsCI s.customer c)
  && (match f.invoice with
    | none => true
    | some inv => containsCI s.invoice inv)
  && (match f.paymentMethod with
    | none => true
    | some pm => containsCI s.paymentMethod pm)
  && (match f.id with
    | none => true
    | some ids => ids.contains s.id)
  && (match f.item with
    | none => true
    | some it => containsCI s.item it)

/-- The `chunkArray` of `lib/utils.ts`: split a list into consecutive chunks of
at most `n` elements (the source is only ever called with `n > 0`). -/
def chunkArray : List α → Nat → List (List α)
  | [], _ => []
  | _ :: _, 0 => []
  | a :: t, n + 1 =>
    (a :: t).take (n + 1) :: chunkArray ((a :: t).drop (n + 1)) (n + 1)
termination_by l _ => l.length
decreasing_by
  simp only [List.drop_succ_cons, List.length_drop, List.length_cons]
  omega

/-- Per-item accumulator of the ITEM branch of `getTopAggregates`. -/
structure ItemStats where
  count : Nat := 0
  totalQuantity : Int := 0
  totalSales : ℚ := 0
  totalPrice : ℚ := 0
deriving DecidableEq

/-- The four `+=` updates applied to one item's accumulator per sale. -/
def addSaleToStats (st : ItemStats) (s : Sale) : ItemStats :=
  { count := st.count + 1
    totalQuantity := st.totalQuantity + s.quantity
    totalSales := st.totalSales + s.total
    totalPrice := st.totalPrice + s.price * (s.quantity : ℚ) }

/-- Lookup in the JS record `itemStats` keyed by item name. -/
def lookupStats (acc : List (String × ItemStats)) (k : String) :
    Option ItemStats :=
  (acc.find? (fun q => q.1 == k)).map (fun q => q.2)

/-- One step of the `salesData.forEach` accumulation: initialise a missing
key with the zero record, then apply the `+=` updates. -/
def updateItemStats (acc : List (String × ItemStats)) (s : Sale) :
    List (String × ItemStats) :=
  match lookupStats acc s.item with
  | some _ =>
    acc.map (fun q => if q.1 == s.item then (q.1, addSaleToStats q.2 s) else q)
  | none => acc ++ [(s.item, addSaleToStats {} s)]

/-- The complete `itemStats` record after the `forEach` over `salesData`,
keyed in order of first appearance. -/
def itemStatsOf (rows : List Sale) : List (String × ItemStats) :=
  rows.foldl updateItemStats []

/-- One entry of `aggregatedItems` in the ITEM branch. -/
structure ItemAgg where
  group : String
  count : Nat
  totalQuantity : Int
  totalSales : ℚ
  averagePrice : ℚ
deriving DecidableEq

/-- The `Object.entries(itemStats).map(...)`: per item, the quantity-weighted
average price with the zero-quantity guard. -/
def aggregatedItemsOf (rows : List Sale) : List ItemAgg :=
  (itemStatsOf rows).map (fun q : String × ItemStats =>
    { group := q.1
      count := q.2.count
      totalQuantity := q.2.totalQuantity
      totalSales := q.2.totalSales
      averagePrice :=
        if 0 < q.2.totalQuantity then q.2.totalPrice / (q.2.totalQuantity : ℚ)
        else 0 })

/-- The `aggregatedItems.sort(...)` comparator choice. -/
def sortItemAggs (sortBy : Option TopSortBy) (l : List ItemAgg) :
    List ItemAgg :=
  match sortBy with
  | some .COUNT => List.insertionSort (byKeyDesc (fun g : ItemAgg => g.count)) l
  | some .QUANTITY =>
    List.insertionSort (byKeyDesc (fun g : ItemAgg => g.totalQuantity)) l
  | _ => List.insertionSort (byKeyDesc (fun g : ItemAgg => g.totalSales)) l

/-- The `list.slice(0, limitSanitise || undefined)`: `null` and `0` both fall
back to `undefined` (no truncation), a positive bound keeps a prefix, and a
negative bound drops that many elements from the end. -/
def sliceToLimit (limit : Option Int) (l : List α) : List α :=
  match limit with
  | none => l
  | some n =>
    if n = 0 then l
    else if 0 < n then l.take n.toNat
    else l.take (l.length - (-n).toNat)

/-- Rendering of one `aggregatedItems` entry. -/
def renderItemLine (jsr : JsRuntime) (g : ItemAgg) : String :=
  "Item: " ++ g.group ++ ", Count: " ++ toString g.count
    ++ ", Total Quantity Sold: " ++ toString g.totalQuantity
    ++ ", Total Sales: RM " ++ jsr.fmtMoney g.totalSales
    ++ ", Average Price: RM " ++ jsr.fmtMoney g.averagePrice

/-- The `salesData` list of the ITEM branch: the primary `findMany` throws
a `TypeError` on the `console.log(filter[0].length, ...)` probe (a
`TopFilter` record has no `"0"` property), so the `catch` path always runs,
concatenating one batched `findMany` per chunk of the retrieval-scored ids;
if that yields nothing, a final fallback queries the scored ids alone with
`take: 1000`. -/
def topItemQuery (db : List Sale) (f : TopFilter) (scoredIds : List String) :
    List Sale :=
  let primary : Option (List Sale) :=
    match topFilterIndex f "0" with
    | none => none
    | some _ => some (db.filter (matchesTopFilter f))
  let salesData :=
    match primary with
    | some l => l
    | none =>
      (chunkArray scoredIds 30000).foldl
        (fun acc batch =>
          acc ++ db.filter (matchesTopFilter { f with id := some batch })) []
  if salesData.isEmpty then
    (db.filter (fun s => scoredIds.contains s.id)).take 1000
  else salesData

/-- The rendered ITEM-branch result for a non-empty `salesData`. -/
def topItemRender (jsr : JsRuntime) (p : TopAggregatesParams)
    (rows : List Sale) : String :=
  String.intercalate "\n"
    ((sliceToLimit p.limit (sortItemAggs p.sortBy (aggregatedItemsOf rows))).map
      (renderItemLine jsr))

/-- The grouping key of the non-ITEM branch (`fieldMapping`). -/
def topGroupKey (gb : TopGroupBy) (s : Sale) : String :=
  match gb with
  | .STATE => s.address
  | .ITEM => s.item
  | .CUSTOMER => s.customer
  | .INVOICE => s.invoice
  | .PAYMENT_METHOD => s.paymentMethod

/-- Display name of a `groupBy` value. -/
def topGroupName (gb : TopGroupBy) : String :=
  match gb with
  | .ITEM => "ITEM"
  | .STATE => "STATE"
  | .CUSTOMER => "CUSTOMER"
  | .INVOICE => "INVOICE"
  | .PAYMENT_METHOD => "PAYMENT_METHOD"

/-- One group of the non-ITEM `prisma.sales.groupBy` call. -/
structure GroupAgg where
  key : String
  count : Nat
  sumTotal : ℚ
  sumQuantity : Int
deriving DecidableEq

/-- The `prisma.sales.groupBy({ by: [field], _count, _sum })`, modelled as a
left fold keyed by first appearance. -/
def groupAggsOf (gb : TopGroupBy) (rows : List Sale) : List GroupAgg :=
  rows.foldl
    (fun acc s =>
      let k := topGroupKey gb s
      match acc.find? (fun g => g.key == k) with
      | some _ =>
        acc.map (fun g =>
          if g.key == k then
            { g with
              count := g.count + 1
              sumTotal := g.sumTotal + s.total
              sumQuantity := g.sumQuantity + s.quantity }
          else g)
      | none => acc ++ [⟨k, 1, s.total, s.quantity⟩]) []

/-- The `groups.sort(...)` comparator choice of the non-ITEM branch. -/
def sortGroupAggs (sortBy : Option TopSortBy) (l : List GroupAgg) :
    List GroupAgg :=
  match sortBy with
  | some .COUNT =>
    List.insertionSort (byKeyDesc (fun g : GroupAgg => g.count)) l
  | some .QUANTITY =>
    List.insertionSort (byKeyDesc (fun g : GroupAgg => g.sumQuantity)) l
  | _ => List.insertionSort (byKeyDesc (fun g : GroupAgg => g.sumTotal)) l

/-- Rendering of one non-ITEM group. -/
def renderGroupLine (jsr : JsRuntime) (gb : TopGroupBy) (g : GroupAgg) :
    String :=
  "Group (" ++ topGroupName gb ++ "): " ++ g.key ++ ", Count: "
    ++ toString g.count ++ ", Total Sales: RM " ++ jsr.fmtMoney g.sumTotal
    ++ ", Total Quantity: " ++ toString g.sumQuantity

/-- The `prisma.sales.groupBy({ by: ["invoice"], _sum: { total } })` over the
final filter, for the region invoice-trend suffix. -/
def invoiceGroupsOf (db : List Sale) (f : TopFilter) : List (String × ℚ) :=
  (db.filter (matchesTopFilter f)).foldl
    (fun acc s =>
      match acc.find? (fun q => q.1 == s.invoice) with
      | some _ =>
        acc.map (fun q => if q.1 == s.invoice then (q.1, q.2 + s.total) else q)
      | none => acc ++ [(s.invoice, s.total)]) []

/-- When a region filter was supplied, append the invoice-trend summary
computed over the same (final) filter. -/
def withRegionSuffix (jsr : JsRuntime) (p : TopAggregatesParams)
    (db : List Sale) (f : TopFilter) (result : String) : String :=
  match truthy p.region with
  | none => result
  | some _ =>
    let invoiceGroups := invoiceGroupsOf db f
    let invoiceCount := invoiceGroups.length
    let totalInvoiceAmount := (invoiceGroups.map (fun q => q.2)).sum
    let averageInvoiceValue :=
      if 0 < invoiceCount then totalInvoiceAmount / (invoiceCount : ℚ) else 0
    result ++ "\n\n" ++ String.intercalate "\n"
      ["Invoice Trends:",
        "Unique Invoices: " ++ toString invoiceCount,
        "Total Invoice Amount: RM " ++ jsr.fmtMoney totalInvoiceAmount,
        "Average Invoice Value: RM " ++ jsr.fmtMoney averageInvoiceValue]

/-- Shallow embedding of `getTopAggregates.execute` (`services/tools.ts`).
The retrieval subsystem (`retrieveRelevantSalesRecords` applied to the item
argument) is the explicit parameter `retrieval`. -/
def getTopAggregates (jsr : JsRuntime) (retrieval : String → List ScoredSale)
    (p : TopAggregatesParams) (db : List Sale) : String :=
  let f0 := buildTopFilter p
  match p.groupBy with
  | .ITEM =>
    match truthy p.item with
    | some it =>
      let scored := retrieval it
      if scored.isEmpty then noRecordsMsg
      else
        let scoredIds := scored.map ScoredSale.id
        let f := { f0 with id := some scoredIds, item := some it }
        let rows := topItemQuery db f scoredIds
        if rows.isEmpty then noRecordsMsg
        else withRegionSuffix jsr p db f (topItemRender jsr p rows)
    | none =>
      let rows := topItemQuery db f0 []
      if rows.isEmpty then noRecordsMsg
      else withRegionSuffix jsr p db f0 (topItemRender jsr p rows)
  | gb =>
    let groups := groupAggsOf gb (db.filter (matchesTopFilter f0))
    let top := sliceToLimit p.limit (sortGroupAggs p.sortBy groups)
    if top.isEmpty then "No groups found for the given filters."
    else
      withRegionSuffix jsr p db f0
        (String.intercalate "\n" (top.map (renderGroupLine jsr gb)))

/-- A JavaScript value as handled by the repair hook (tool-call arguments
and schema examples). -/
inductive JsValue
  | str (s : String)
  | num (q : ℚ)
  | jsBool (b : Bool)
  | null
  | arr (xs : List JsValue)
  | obj (fields : List (String × JsValue))

mutual

/-- The `flattenToolArgs` of the chat route: an object of the literal shape
with a single `value` key is replaced by that value (without further
flattening, exactly as the early `return obj.value`); arrays and other
objects are flattened element-wise; primitives pass through — in
particular the plain text returned by the repair model. -/
def flattenToolArgs : JsValue → JsValue
  | .obj [("value", v)] => v
  | .obj fields => .obj (flattenToolFields fields)
  | .arr xs => .arr (flattenToolItems xs)
  | v => v

/-- Field-wise recursion of `flattenToolArgs` over an object. -/
def flattenToolFields : List (String × JsValue) → List (String × JsValue)
  | [] => []
  | (k, v) :: rest => (k, flattenToolArgs v) :: flattenToolFields rest

/-- Element-wise recursion of `flattenToolArgs` over an array. -/
def flattenToolItems : List JsValue → List JsValue
  | [] => []
  | v :: rest => flattenToolArgs v :: flattenToolItems rest

end

/-- The runtime kind of one field of a tool parameter schema, as
discriminated by the `instanceof` chain of `getExampleArgs`.  Every tool
schema in the repository is a flat `z.object` whose fields are enums,
plain strings, plain numbers, or `z.preprocess`-wrapped schemas; the
wrapped ones match none of the `instanceof` tests and fall through to the
`null` example. -/
inductive ZodFieldKind
  | enum (values : List String)
  | str
  | num
  | wrapped
deriving DecidableEq

/-- A tool parameter schema: a `z.object` with named fields. -/
structure ZodSchema where
  fields : List (String × ZodFieldKind)
deriving DecidableEq

/-- The example value `getExampleArgs` synthesises for one field: an enum
contributes its full list of allowed values, a string the placeholder
`"example"`, a number `0`, and anything else `null`. -/
def exampleForField : ZodFieldKind → JsValue
  | .enum values => .arr (values.map JsValue.str)
  | .str => .str "example"
  | .num => .num 0
  | .wrapped => .null

/-- The `getExampleArgs` of the chat route applied to a tool schema. -/
def getExampleArgs (schema : ZodSchema) : JsValue :=
  .obj (schema.fields.map (fun f => (f.1, exampleForField f.2)))

/-- A tool call as seen by the repair hook. -/
structure RepairToolCall where
  toolName : String
  args : JsValue

/-- The error classes the repair hook distinguishes
(`NoSuchToolError.isInstance` versus everything else, which in the repair
path is an `InvalidToolArgumentsError`). -/
inductive ToolErrorKind
  | noSuchTool
  | invalidArgs
deriving DecidableEq

/-- The fixed prompt the hook sends to the secondary "small-model" repair
call; `stringify` is the external `JSON.stringify`. -/
def repairPrompt (stringify : JsValue → String) (call : RepairToolCall)
    (expectedArgs : JsValue) : String :=
  String.intercalate "\n"
    ["The model tried to call the tool \"" ++ call.toolName
        ++ "\" with the following initial arguments:",
      stringify call.args,
      "The tool accepts the following schema example:",
      stringify expectedArgs,
      "Please fix the arguments. Include the initial argument \"value\" value, do not include the \"type\" or \"value\" keys."]

/-- One registered tool of the router: its name, parameter schema,
argument validator, and `execute` body. -/
structure RegisteredTool where
  name : String
  schema : ZodSchema
  validate : JsValue → Bool
  run : JsValue → String

/-- The `tools[toolName]` lookup. -/
def lookupTool (registry : List RegisteredTool) (name : String) :
    Option RegisteredTool :=
  registry.find? (fun t => t.name == name)

/-- Shallow embedding of `experimental_repairToolCall` (chat route,
`app/(chat)/api/chat/route.ts`).  A `NoSuchToolError` returns `null`
immediately — zero repair-model calls.  Any other error performs exactly
one `generateText` call on the secondary model (`fixer`), flattens the
returned text, and re-submits the call with the cleaned arguments.  The
result pairs the hook outcome with the number of repair-model calls
made. -/
def experimentalRepairToolCall (stringify : JsValue → String)
    (fixer : String → String) (registry : List RegisteredTool)
    (err : ToolErrorKind) (call : RepairToolCall) :
    Option RepairToolCall × Nat :=
  match err with
  | .noSuchTool => (none, 0)
  | .invalidArgs =>
    match lookupTool registry call.toolName with
    | none => (none, 0)
    | some t =>
      let expectedArgs := getExampleArgs t.schema
      let repairedArgs := fixer (repairPrompt stringify call expectedArgs)
      let cleanedRepairedArgs := flattenToolArgs (.str repairedArgs)
      (some { call with args := cleanedRepairedArgs }, 1)

/-- Terminal outcome of one tool call as surfaced by the router's
`onError` normalisation. -/
inductive ToolOutcome
  | success (result : String)
  | noSuchToolMessage
  | toolArgumentError
deriving DecidableEq

/-- Modelled from the spec: the tool-call dispatch loop around
`experimental_repairToolCall` lives in the external `ai` SDK
(`streamText`), not in this repository.  Per the specification, the SDK
validates the call's arguments against the tool's schema, invokes the
repair hook once on failure (`NoSuchTool` first, which the hook treats as
non-recoverable), re-validates the repaired arguments, and surfaces a
terminal error — never a second repair — when they still fail.  The
returned `Nat` counts secondary repair-model calls. -/
def processToolCall (stringify : JsValue → String) (fixer : String → String)
    (registry : List RegisteredTool) (call : RepairToolCall) :
    ToolOutcome × Nat :=
  match lookupTool registry call.toolName with
  | none =>
    let hook :=
      experimentalRepairToolCall stringify fixer registry .noSuchTool call
    (.noSuchToolMessage, hook.2)
  | some t =>
    if t.validate call.args then (.success (t.run call.args), 0)
    else
      match
        experimentalRepairToolCall stringify fixer registry .invalidArgs call
      with
      | (none, n) => (.toolArgumentError, n)
      | (some repaired, n) =>
        if t.validate repaired.args then (.success (t.run repaired.args), n)
        else (.toolArgumentError, n)

/-- A neutral `Sale` record; concrete test rows override the relevant
fields. -/
def mkSale : Sale :=
  { id := "", customer := "", invoice := "", purchaseDate := 0, address := ""
    item := "", quantity := 0, price := 0, total := 0, comment := ""
    remarks := "", paymentMethod := "", embedding := none }

/-- A trivial instantiation of the external runtime facilities. -/
def jsr0 : JsRuntime :=
  { fmtMoney := fun _ => "", fmtFixed2 := fun _ => "", fmtDate := fun _ => ""
    trendOutput := fun _ => "" }

/-- Dataset with exactly the payment methods `Cash` and `Credit Card`. -/
def dbPayments : List Sale :=
  [{ mkSale with id := "s1", paymentMethod := "Cash", total := 10 },
    { mkSale with id := "s2", paymentMethod := "Credit Card", total := 20 }]

/-- The `ANALYTICS`/`TOTAL_SALES` request with the unknown payment method
`Bitcoin`. -/
def pBitcoin : SalesAnalyticsParams :=
  { operation := .ANALYTICS, analyticsType := some .TOTAL_SALES
    paymentMethod := some "Bitcoin" }

/-- Two invoices with distinct totals, for the invoice-filter
discrepancy. -/
def dbInvoices : List Sale :=
  [{ mkSale with id := "a", invoice := "A", total := 10 },
    { mkSale with id := "b", invoice := "B", total := 20 }]

/-- The `ANALYTICS`/`TOTAL_SALES` request carrying an invoice filter. -/
def pInvoiceA : SalesAnalyticsParams :=
  { operation := .ANALYTICS, analyticsType := some .TOTAL_SALES
    invoice := some "A" }

/-- The `ANALYTICS` request with no `analyticsType`. -/
def pNoType : SalesAnalyticsParams := { operation := .ANALYTICS }

/-- The `TREND` request with no `groupBy`. -/
def pNoGroupBy : SalesAnalyticsParams := { operation := .TREND }

/-- The `FILTER` request whose date range contains no rows of `dbEarly`. -/
def pLateRange : SalesAnalyticsParams :=
  { operation := .FILTER, startDate := some 100, endDate := some 200 }

/-- One sale dated before the `pLateRange` window. -/
def dbEarly : List Sale :=
  [{ mkSale with id := "e", purchaseDate := 50, total := 5 }]

/-- Three stored vectors whose distances to any query embedding are
`0.1`, `0.5` and `0.9` under `distSample`. -/
def vectorsSample : List VectorEntry :=
  [{ id := "v1", embedding := some [1] },
    { id := "v2", embedding := some [2] },
    { id := "v3", embedding := some [3] }]

/-- Embedding model stub for the retrieval instance. -/
def embedSample : String → List ℚ := fun _ => []

/-- Distance operator giving the three sample vectors distances `0.1`,
`0.5` and `0.9`. -/
def distSample : List ℚ → List ℚ → ℚ := fun e _ =>
  if e = [1] then 1 / 10 else if e = [2] then 1 / 2 else 9 / 10

/-- CSV row whose description is not upper-case. -/
def rowWidget : CsvRow :=
  { coLastName := "SMITH", addrLine1 := "SMITH", line2 := "", line3 := ""
    line4 := "", destinationCountry := "Malaysia", invoiceNo := "J100"
    quantity := 2, description := "Widget", price := 10, total := 20
    comment := "", journalMemo := "", paymentMethod := "Cash" }

/-- The `getTopAggregates` request for ITEM grouping with no item argument. -/
def pItemNone : TopAggregatesParams := { groupBy := .ITEM }

/-- The `getTopAggregates` request for ITEM grouping filtered to `A`. -/
def pItemA : TopAggregatesParams := { groupBy := .ITEM, item := some "A" }

/-- Synthetic dataset with two items of differing price and quantity. -/
def rowsWeighted : List Sale :=
  [{ mkSale with
      id := "w1", item := "APPLE", quantity := 2, price := 10, total := 20 },
    { mkSale with
      id := "w2", item := "APPLE", quantity := 3, price := 20, total := 60 },
    { mkSale with
      id := "w3", item := "PEAR", quantity := 1, price := 5, total := 5 }]

/-- The aggregate entry `getTopAggregates` reports for `APPLE` over
`rowsWeighted`. -/
def appleAgg : ItemAgg :=
  { group := "APPLE", count := 2, totalQuantity := 5, totalSales := 80
    averagePrice := 16 }

/-- The unfiltered `ANALYTICS`/`TOTAL_SALES` request the keyword fast path
must agree with. -/
def pTotalUnfiltered : SalesAnalyticsParams :=
  { operation := .ANALYTICS, analyticsType := some .TOTAL_SALES }

/-- Sample dataset for the fast-path witness. -/
def dbTotals : List Sale :=
  [{ mkSale with id := "t1", total := 3 }, { mkSale with id := "t2", total := 4 }]

/-- A registered tool whose validator rejects everything, so that even the
repaired arguments fail validation. -/
def rejectingTool : RegisteredTool :=
  { name := "toolA", schema := ⟨[]⟩, validate := fun _ => false
    run := fun _ => "" }

/-- Repair model stub. -/
def fixerSample : String → String := fun _ => "fixed"

/-- The `JSON.stringify` stub. -/
def stringifySample : JsValue → String := fun _ => ""

/-- Claim C6: an `ANALYTICS` request with no `analyticsType`, and a `TREND`
request with no `groupBy`, both fail fast with an explicit error naming the
missing field, before any storage query is issued. -/
theorem missing_required_field_fails_fast :
    (∀ (jsr : JsRuntime) (p : SalesAnalyticsParams) (db : List Sale),
      p.operation = .ANALYTICS → p.analyticsType = none →
      getSalesAnalyticsExecute jsr p db
        = ⟨.throws "analyticsType is required for ANALYTICS operation.", 0⟩)
    ∧ (∀ (jsr : JsRuntime) (p : SalesAnalyticsParams) (db : List Sale),
      p.operation = .TREND → p.groupBy = none →
      getSalesAnalyticsExecute jsr p db
        = ⟨.throws "groupBy is required for TREND operation.", 0⟩) := by
  constructor
  · intro jsr p db hop hty
    simp [getSalesAnalyticsExecute, hop, hty]
  · intro jsr p db hop hgb
    simp [getSalesAnalyticsExecute, hop, hgb]

/-- Witness for C6: both validation errors at concrete requests. -/
theorem missing_required_field_fails_fast_witness :
    getSalesAnalyticsExecute jsr0 pNoType []
      = ⟨.throws "analyticsType is required for ANALYTICS operation.", 0⟩
    ∧ getSalesAnalyticsExecute jsr0 pNoGroupBy []
      = ⟨.throws "groupBy is required for TREND operation.", 0⟩ :=
  ⟨missing_required_field_fails_fast.1 jsr0 pNoType [] rfl rfl,
    missing_required_field_fails_fast.2 jsr0 pNoGroupBy [] rfl rfl⟩

/-- Counterexample to claim C1: for an `ANALYTICS` request with the unknown
payment method `Bitcoin` against a dataset containing exactly `Cash` and
`Credit Card`, the returned message is the fixed string
`Payment method 'Bitcoin' is not available.` — it names neither `Cash` nor
`Credit Card`, so it does not list the set of valid payment methods. -/
theorem unknown_payment_method_not_listed_cex :
    (getSalesAnalyticsExecute jsr0 pBitcoin dbPayments).out
      = .returns "Payment method 'Bitcoin' is not available."
    ∧ containsSub "Payment method 'Bitcoin' is not available." "Cash" = false
    ∧ containsSub "Payment method 'Bitcoin' is not available." "Credit Card"
      = false := by
  refine ⟨?_, by decide, by decide⟩
  decide

/-- Claim C1 (amended): for every `ANALYTICS` request whose `paymentMethod`
matches no row under the active date filter, `getSalesAnalytics` returns
the fixed message naming the rejected method — but not the valid set — and
performs no aggregation: the only storage query issued is the validation
count. -/
theorem unknown_payment_method_message (jsr : JsRuntime)
    (p : SalesAnalyticsParams) (db : List Sale) (pm : String)
    (t : AnalyticsType) (hop : p.operation = .ANALYTICS)
    (ht : p.analyticsType = some t) (hpm : truthy p.paymentMethod = some pm)
    (hcount : paymentMethodCount p pm db = 0) :
    getSalesAnalyticsExecute jsr p db
      = ⟨.returns ("Payment method '" ++ pm ++ "' is not available."), 1⟩ := by
  simp [getSalesAnalyticsExecute, hop, ht, hpm, hcount]

/-- Witness for the amended C1 at the `Bitcoin` request. -/
theorem unknown_payment_method_message_witness :
    getSalesAnalyticsExecute jsr0 pBitcoin dbPayments
      = ⟨.returns "Payment method 'Bitcoin' is not available.", 1⟩ :=
  unknown_payment_method_message jsr0 pBitcoin dbPayments "Bitcoin"
    .TOTAL_SALES rfl rfl rfl (by decide)

/-- Claim C9: for every query containing one of the fast-path keyword
phrases, the keyword short-circuit of `retrieveRelevantSales` answers with
the unfiltered sum of `total`, and that value is exactly the
`ANALYTICS`/`TOTAL_SALES` aggregate of `getSalesAnalytics` over the same
unfiltered dataset. -/
theorem keyword_fastpath_total_equiv (jsr : JsRuntime) (sqrt : ℚ → ℚ)
    (embed : String → List ℚ) (q : String) (db : List Sale)
    (hk : hasTotalKeyword q = true) :
    retrieveRelevantSales jsr sqrt embed q db
      = "The total sum of all sales is RM " ++ jsr.fmtFixed2 (fastPathTotal db)
        ++ "."
    ∧ fastPathTotal db = totalSalesValue pTotalUnfiltered db := by
  constructor
  · simp [retrieveRelevantSales, hk]
  · unfold fastPathTotal totalSalesValue
    have h : db.filter (analyticsWhere pTotalUnfiltered) = db :=
      List.filter_eq_self.mpr (fun a _ => rfl)
    rw [h]

/-- Witness for C9 at a concrete keyword query and dataset. -/
theorem keyword_fastpath_total_equiv_witness :
    retrieveRelevantSales jsr0 (fun _ => 0) (fun _ => []) "show the total sales"
        dbTotals
      = "The total sum of all sales is RM "
        ++ jsr0.fmtFixed2 (fastPathTotal dbTotals) ++ "."
    ∧ fastPathTotal dbTotals = totalSalesValue pTotalUnfiltered dbTotals :=
  keyword_fastpath_total_equiv jsr0 (fun _ => 0) (fun _ => [])
    "show the total sales" dbTotals (by decide)

/-- A `TopFilter` record has no `"0"` property, so the
`console.log(filter[0].length, ...)` probe always dereferences
`undefined`. -/
theorem topFilterIndex_zero (f : TopFilter) : topFilterIndex f "0" = none := by
  unfold topFilterIndex
  rw [if_neg (by decide), if_neg (by decide), if_neg (by decide),
    if_neg (by decide), if_neg (by decide), if_neg (by decide),
    if_neg (by decide)]

/-- With no retrieval-scored ids, the ITEM query of `getTopAggregates`
returns no rows for any database: the primary query throws, the batched
catch path iterates over zero batches, and the fallback queries
`id ∈ []`. -/
theorem topItemQuery_empty_scored (db : List Sale) (f : TopFilter) :
    topItemQuery db f [] = [] := by
  unfold topItemQuery
  rw [topFilterIndex_zero]
  have hfilter : db.filter (fun s => List.contains [] s.id) = [] :=
    List.filter_eq_nil_iff.mpr (fun a _ => by simp [List.contains])
  simp [chunkArray, hfilter]

/-- Claim C10: `getTopAggregates` with `groupBy = ITEM` and no item
argument always returns the no-records sentinel, whatever sales records
are present: the primary query path throws on `filter[0].length` and both
fallback paths query only the empty list of retrieval-scored ids. -/
theorem topAggregates_item_none_sentinel (jsr : JsRuntime)
    (retrieval : String → List ScoredSale) (p : TopAggregatesParams)
    (db : List Sale) (hgb : p.groupBy = .ITEM)
    (hit : truthy p.item = none) :
    getTopAggregates jsr retrieval p db = noRecordsMsg := by
  unfold getTopAggregates
  rw [hgb]
  simp [hit, topItemQuery_empty_scored]

/-- Witness for C10: a populated store still yields the sentinel. -/
theorem topAggregates_item_none_sentinel_witness :
    getTopAggregates jsr0 (fun _ => []) pItemNone rowsWeighted
      = noRecordsMsg :=
  topAggregates_item_none_sentinel jsr0 (fun _ => []) pItemNone rowsWeighted
    rfl rfl

/-- Claim C5 fails on the code: importing the CSV row
`(J100, "Widget", 20)` twice into an empty store leaves two `Sales`
records with the same `(invoice, item, total)` tuple `(J100, WIDGET, 20)`.
The re-import filter compares the trimmed description `Widget`, while the
stored item is the upper-cased `WIDGET`, so the second import is not
recognised as a duplicate. -/
theorem reimport_creates_duplicate :
    ((ingestCsv (ingestCsv [] [rowWidget]) [rowWidget]).filter
      (fun s => decide (saleDedupKey s = ("J100", "WIDGET", (20 : ℚ))))).length
      = 2 := by
  decide

/-- Claim C7: the FILTER branch returns the matching rows ordered by
`purchaseDate` descending, one rendered line per row, and returns the
fixed no-records sentinel exactly when no row matches. -/
theorem filter_sorted_sentinel (jsr : JsRuntime) (p : SalesAnalyticsParams)
    (db : List Sale) (hop : p.operation = .FILTER) :
    List.Sorted (byKeyDesc Sale.purchaseDate) (filterRowsOf p db)
    ∧ (filterRowsOf p db).Perm (db.filter (filterWhere p))
    ∧ (db.filter (filterWhere p) = [] →
        getSalesAnalyticsExecute jsr p db = ⟨.returns noRecordsMsg, 1⟩)
    ∧ (db.filter (filterWhere p) ≠ [] →
        getSalesAnalyticsExecute jsr p db
          = ⟨.returns (String.intercalate "\n"
              ((filterRowsOf p db).map (renderFilterLine jsr))), 1⟩) := by
  refine ⟨List.sorted_insertionSort _ _, List.perm_insertionSort _ _, ?_, ?_⟩
  · intro hnil
    have hrows : filterRowsOf p db = [] := by
      unfold filterRowsOf
      rw [hnil]
      rfl
    simp [getSalesAnalyticsExecute, hop, hrows]
  · intro hne
    have hne2 : filterRowsOf p db ≠ [] := by
      intro h
      apply hne
      have hperm :=
        List.perm_insertionSort (byKeyDesc Sale.purchaseDate)
          (db.filter (filterWhere p))
      unfold filterRowsOf at h
      rw [h] at hperm
      exact hperm.symm.eq_nil
  -- reduce the FILTER branch with a non-empty sorted row list
    cases h' : filterRowsOf p db with
    | nil => exact absurd h' hne2
    | cons a t => simp [getSalesAnalyticsExecute, hop, h']

/-- Witness for C7: a date range containing zero rows yields the
sentinel. -/
theorem filter_sorted_sentinel_witness :
    getSalesAnalyticsExecute jsr0 pLateRange dbEarly
      = ⟨.returns noRecordsMsg, 1⟩ :=
  (filter_sorted_sentinel jsr0 pLateRange dbEarly rfl).2.2.1 (by decide)

/-- Counterexample to claim C2: with the filter set `{invoice = "A"}`, the
`ANALYTICS`/`TOTAL_SALES` aggregate (which never applies an invoice
filter) differs from the sum of `total` over the rows the FILTER operation
returns for the same filter set. -/
theorem analytics_ignores_invoice_filter_cex :
    ¬ (totalSalesValue pInvoiceA dbInvoices
      = ((filterRowsOf pInvoiceA dbInvoices).map Sale.total).sum) := by
  intro h
  have hsum : ((filterRowsOf pInvoiceA dbInvoices).map Sale.total).sum
      = ((dbInvoices.filter (filterWhere pInvoiceA)).map Sale.total).sum :=
    ((List.perm_insertionSort (byKeyDesc Sale.purchaseDate) _).map
      Sale.total).sum_eq
  have hfilter : dbInvoices.filter (filterWhere pInvoiceA)
      = [{ mkSale with id := "a", invoice := "A", total := 10 }] := by decide
  have hana : dbInvoices.filter (analyticsWhere pInvoiceA) = dbInvoices := by
    decide
  rw [hsum, hfilter] at h
  unfold totalSalesValue at h
  rw [hana] at h
  simp [dbInvoices, mkSale] at h

/-- Claim C2 (amended): for every filter set that uses only the date range
and payment method — the filters the ANALYTICS branch actually applies;
`invoice` and `customer` are ignored by ANALYTICS though FILTER applies
them — the `TOTAL_SALES` aggregate equals the sum of `total` over exactly
the rows FILTER returns, and `AVERAGE_SALES` equals `TOTAL_SALES` divided
by `SALES_COUNT` when the count is positive and `0` otherwise. -/
theorem analytics_matches_filter_sum (p : SalesAnalyticsParams)
    (db : List Sale) (hinv : truthy p.invoice = none)
    (hcust : truthy p.customer = none) :
    totalSalesValue p db = ((filterRowsOf p db).map Sale.total).sum
    ∧ averageSalesValue p db
      = (if 0 < salesCountValue p db then
          totalSalesValue p db / (salesCountValue p db : ℚ) else 0) := by
  have hwhere : ∀ s ∈ db, filterWhere p s = analyticsWhere p s := by
    intro s _
    unfold filterWhere analyticsWhere
    rw [hinv, hcust]
    simp
  have hfilter : db.filter (filterWhere p) = db.filter (analyticsWhere p) :=
    List.filter_congr hwhere
  constructor
  · unfold totalSalesValue filterRowsOf
    rw [hfilter]
    exact (((List.perm_insertionSort (byKeyDesc Sale.purchaseDate)
      (db.filter (analyticsWhere p))).map Sale.total).sum_eq).symm
  · unfold averageSalesValue salesCountValue totalSalesValue
    by_cases h : (db.filter (analyticsWhere p)).length = 0
    · simp [h]
    · simp [h, Nat.pos_of_ne_zero h]

/-- Witness for the amended C2 at a concrete dataset and a date-only
filter set. -/
theorem analytics_matches_filter_sum_witness :
    totalSalesValue pLateRange dbInvoices
      = ((filterRowsOf pLateRange dbInvoices).map Sale.total).sum
    ∧ averageSalesValue pLateRange dbInvoices
      = (if 0 < salesCountValue pLateRange dbInvoices then
          totalSalesValue pLateRange dbInvoices
            / (salesCountValue pLateRange dbInvoices : ℚ) else 0) :=
  analytics_matches_filter_sum pLateRange dbInvoices rfl rfl

/-- Claim C4: retrieval embeds the upper-cased query, keeps exactly the
stored non-NULL vectors whose cosine distance to the query embedding is at
most the threshold (boundary included), and returns their (id, distance)
pairs sorted ascending by distance; in particular, three vectors at
distances `0.1`, `0.5`, `0.9` with the default threshold `0.7` yield
exactly the first two, in that order. -/
theorem retrieve_threshold_sorted :
    (∀ (embed : String → List ℚ) (dist : List ℚ → List ℚ → ℚ) (q : String)
      (thr : ℚ) (vs : List VectorEntry),
      List.Sorted (byKeyAsc ScoredSale.score)
        (retrieveRelevantSalesRecords embed dist q thr vs)
      ∧ (∀ r : ScoredSale,
        r ∈ retrieveRelevantSalesRecords embed dist q thr vs ↔
          ∃ v ∈ vs, ∃ e, v.embedding = some e
            ∧ r.id = v.id ∧ r.score = dist e (embed (strUpper q))
            ∧ r.score ≤ thr))
    ∧ retrieveRelevantSalesRecords embedSample distSample "q"
        defaultDistanceThreshold vectorsSample
      = [⟨"v1", 1 / 10⟩, ⟨"v2", 1 / 2⟩] := by
  constructor
  · intro embed dist q thr vs
    refine ⟨List.sorted_insertionSort _ _, ?_⟩
    intro r
    unfold retrieveRelevantSalesRecords
    rw [List.mem_insertionSort, List.mem_filterMap]
    constructor
    · rintro ⟨v, hv, hf⟩
      obtain ⟨rid, rscore⟩ := r
      refine ⟨v, hv, ?_⟩
      cases he : v.embedding with
      | none => rw [he] at hf; simp at hf
      | some e =>
        rw [he] at hf
        by_cases hle : dist e (embed (strUpper q)) ≤ thr
        · simp only [hle, if_true, Option.some.injEq,
            ScoredSale.mk.injEq] at hf
          obtain ⟨h1, h2⟩ := hf
          exact ⟨e, rfl, h1.symm, h2.symm, h2 ▸ hle⟩
        · simp [hle] at hf
    · rintro ⟨v, hv, e, he, hid, hscore, hle⟩
      obtain ⟨rid, rscore⟩ := r
      simp only at hid hscore hle
      subst hid
      subst hscore
      refine ⟨v, hv, ?_⟩
      rw [he]
      simp [hle]
  · norm_num [retrieveRelevantSalesRecords, defaultDistanceThreshold,
      vectorsSample, embedSample, distSample, strUpper, List.filterMap,
      List.insertionSort, List.orderedInsert, byKeyAsc]

/-- Claim C3: the router performs at most one repair attempt per failed
tool call — a single secondary-model call — with no repair at all when the
requested tool name is absent from the registry, and a terminal
`toolArgumentError` (never a second attempt) when the repaired arguments
still fail validation. -/
theorem repair_attempt_bound (stringify : JsValue → String)
    (fixer : String → String) (registry : List RegisteredTool)
    (call : RepairToolCall) :
    (processToolCall stringify fixer registry call).2 ≤ 1
    ∧ (lookupTool registry call.toolName = none →
        processToolCall stringify fixer registry call
          = (.noSuchToolMessage, 0))
    ∧ (∀ t, lookupTool registry call.toolName = some t →
        t.validate call.args = false →
        ∀ repaired,
          experimentalRepairToolCall stringify fixer registry .invalidArgs call
            = (some repaired, 1) →
          t.validate repaired.args = false →
          processToolCall stringify fixer registry call
            = (.toolArgumentError, 1)) := by
  refine ⟨?_, ?_, ?_⟩
  · unfold processToolCall
    cases hl : lookupTool registry call.toolName with
    | none => simp [experimentalRepairToolCall]
    | some t =>
      by_cases hv : t.validate call.args
      · simp [hv]
      · simp only [hv, if_false, Bool.false_eq_true]
        unfold experimentalRepairToolCall
        cases hl2 : lookupTool registry call.toolName with
        | none => simp
        | some t2 =>
          by_cases hv2 :
            t.validate (flattenToolArgs (.str (fixer
              (repairPrompt stringify call (getExampleArgs t2.schema))))) <;>
            simp [hv2]
  · intro hnone
    unfold processToolCall
    rw [hnone]
    simp [experimentalRepairToolCall]
  · intro t hsome hv repaired hrep hv2
    unfold processToolCall
    rw [hsome]
    simp [hv, hrep, hv2]

/-- Witness for C3: a tool whose validator rejects both the original and
the repaired arguments yields exactly one repair attempt and a terminal
argument error, and an unknown tool name yields no repair attempt. -/
theorem repair_attempt_bound_witness :
    processToolCall stringifySample fixerSample [rejectingTool]
        ⟨"toolA", .null⟩
      = (.toolArgumentError, 1)
    ∧ processToolCall stringifySample fixerSample [rejectingTool]
        ⟨"other", .null⟩
      = (.noSuchToolMessage, 0) :=
  ⟨(repair_attempt_bound stringifySample fixerSample [rejectingTool]
      ⟨"toolA", .null⟩).2.2 rejectingTool rfl rfl
      ⟨"toolA", flattenToolArgs (.str (fixerSample
        (repairPrompt stringifySample ⟨"toolA", .null⟩
          (getExampleArgs rejectingTool.schema))))⟩ rfl rfl,
    (repair_attempt_bound stringifySample fixerSample [rejectingTool]
      ⟨"other", .null⟩).2.1 rfl⟩

/-- Unfolding of `lookupStats` over a cons cell. -/
theorem lookupStats_cons (a : String × ItemStats)
    (l : List (String × ItemStats)) (k : String) :
    lookupStats (a :: l) k = if a.1 == k then some a.2 else lookupStats l k := by
  unfold lookupStats
  cases h : a.1 == k <;> simp [List.find?, h]

/-- The `+=` update of the key `x` leaves every other key's entry
unchanged and maps the entry at `x`. -/
theorem lookupStats_map_if (acc : List (String × ItemStats)) (x : String)
    (s : Sale) (k : String) :
    lookupStats
      (acc.map (fun q => if q.1 == x then (q.1, addSaleToStats q.2 s) else q))
      k
      = if k == x then (lookupStats acc k).map (fun st => addSaleToStats st s)
        else lookupStats acc k := by
  induction acc with
  | nil => cases h : (k == x) <;> simp [lookupStats, h]
  | cons a l ih =>
    simp only [List.map_cons]
    rw [lookupStats_cons, lookupStats_cons]
    have hfst : (if a.1 == x then (a.1, addSaleToStats a.2 s) else a).1 = a.1 := by
      split <;> rfl
    rw [hfst]
    cases hak : a.1 == k with
    | true =>
      have h1 : a.1 = k := by simpa using hak
      cases hxk : (k == x) with
      | true =>
        have h2 : k = x := by simpa using hxk
        have hax : (a.1 == x) = true := by simp [h1, h2]
        simp [hax]
      | false =>
        have h2 : ¬ (k = x) := by simpa using hxk
        have hax : (a.1 == x) = false := by simp [h1]; exact h2
        simp [hax]
    | false =>
      rw [ih]
      cases hxk : (k == x) <;> simp

/-- Appending a fresh entry is only visible to lookups of its key. -/
theorem lookupStats_append_single (acc : List (String × ItemStats))
    (x : String) (v : ItemStats) (k : String) :
    lookupStats (acc ++ [(x, v)]) k
      = match lookupStats acc k with
        | some st => some st
        | none => if x == k then some v else none := by
  induction acc with
  | nil => simp [lookupStats_cons, lookupStats]
  | cons a l ih =>
    rw [List.cons_append, lookupStats_cons, lookupStats_cons, ih]
    cases hak : a.1 == k <;> simp

/-- One `forEach` step of the item accumulation, seen through `lookupStats`:
the sale's own item key gains the `+=` updates (starting from the zero
record when absent) and every other key is untouched. -/
theorem lookupStats_update (acc : List (String × ItemStats)) (s : Sale)
    (k : String) :
    lookupStats (updateItemStats acc s) k
      = if s.item == k then
          some (addSaleToStats ((lookupStats acc k).getD {}) s)
        else lookupStats acc k := by
  unfold updateItemStats
  cases hs : lookupStats acc s.item with
  | some st =>
    dsimp only
    rw [lookupStats_map_if]
    cases hsk : s.item == k with
    | true =>
      have h1 : s.item = k := by simpa using hsk
      have h2 : (k == s.item) = true := by simp [h1]
      rw [h1] at hs
      simp [h2, hs]
    | false =>
      have h1 : ¬ (s.item = k) := by simpa using hsk
      have h2 : (k == s.item) = false := by
        simp
        exact fun h => h1 h.symm
      simp [h2]
  | none =>
    dsimp only
    rw [lookupStats_append_single]
    cases hsk : s.item == k with
    | true =>
      have h1 : s.item = k := by simpa using hsk
      rw [h1] at hs
      simp [hs, h1]
    | false =>
      cases hk : lookupStats acc k <;> simp [hsk]

/-- The `lookupStats` after the full `forEach`, as a fold over the sales list
of the per-key option update. -/
theorem lookupStats_foldl (rows : List Sale)
    (acc : List (String × ItemStats)) (k : String) :
    lookupStats (rows.foldl updateItemStats acc) k
      = rows.foldl
          (fun o s =>
            if s.item == k then some (addSaleToStats (o.getD {}) s) else o)
          (lookupStats acc k) := by
  induction rows generalizing acc with
  | nil => rfl
  | cons r rest ih =>
    simp only [List.foldl_cons]
    rw [ih, lookupStats_update]

/-- The per-key option fold is the fold of `addSaleToStats` over the rows
with that item key, absent keys staying absent. -/
theorem stepFold_filter (k : String) (rows : List Sale)
    (o : Option ItemStats) :
    rows.foldl
      (fun o s =>
        if s.item == k then some (addSaleToStats (o.getD {}) s) else o) o
      = if rows.filter (fun s => s.item == k) = [] then o
        else
          some ((rows.filter (fun s => s.item == k)).foldl addSaleToStats
            (o.getD {})) := by
  induction rows generalizing o with
  | nil => simp
  | cons r rest ih =>
    cases hr : r.item == k with
    | true =>
      rw [List.foldl_cons, ih]
      have hfil : (r :: rest).filter (fun s => s.item == k)
          = r :: rest.filter (fun s => s.item == k) := by
        simp [List.filter_cons, hr]
      rw [hfil, if_pos hr]
      cases hrest : rest.filter (fun s => s.item == k) with
      | nil => simp [hrest]
      | cons b tl => simp [hrest]
    | false =>
      have hfil : (r :: rest).filter (fun s => s.item == k)
          = rest.filter (fun s => s.item == k) := by
        simp [List.filter_cons, hr]
      rw [List.foldl_cons, if_neg (by simp [hr]), ih, hfil]

/-- Componentwise value of a fold of `addSaleToStats`: each accumulator
field is the starting value plus the corresponding list sum. -/
theorem foldl_addSaleToStats_fields (l : List Sale) (init : ItemStats) :
    (l.foldl addSaleToStats init).count = init.count + l.length
    ∧ (l.foldl addSaleToStats init).totalQuantity
      = init.totalQuantity + (l.map Sale.quantity).sum
    ∧ (l.foldl addSaleToStats init).totalSales
      = init.totalSales + (l.map Sale.total).sum
    ∧ (l.foldl addSaleToStats init).totalPrice
      = init.totalPrice + (l.map (fun s => s.price * (s.quantity : ℚ))).sum := by
  induction l generalizing init with
  | nil => simp
  | cons r rest ih =>
    obtain ⟨h1, h2, h3, h4⟩ := ih (addSaleToStats init r)
    refine ⟨?_, ?_, ?_, ?_⟩
    · rw [List.foldl_cons, h1]
      simp [addSaleToStats]
      omega
    · rw [List.foldl_cons, h2]
      simp [addSaleToStats]
      ring
    · rw [List.foldl_cons, h3]
      simp [addSaleToStats]
      ring
    · rw [List.foldl_cons, h4]
      simp [addSaleToStats]
      ring

/-- A key absent from `lookupStats` is absent from the key list. -/
theorem lookupStats_none_not_mem (acc : List (String × ItemStats))
    (k : String) (h : lookupStats acc k = none) : k ∉ acc.map Prod.fst := by
  intro hk
  obtain ⟨q, hq, hq1⟩ := List.mem_map.mp hk
  unfold lookupStats at h
  cases hf : acc.find? (fun q => q.1 == k) with
  | some w => rw [hf] at h; simp at h
  | none =>
    have := List.find?_eq_none.mp hf q hq
    simp [hq1] at this

/-- The `forEach` accumulation never duplicates an item key. -/
theorem itemStats_keys_nodup (rows : List Sale)
    (acc : List (String × ItemStats)) (h : (acc.map Prod.fst).Nodup) :
    ((rows.foldl updateItemStats acc).map Prod.fst).Nodup := by
  induction rows generalizing acc with
  | nil => exact h
  | cons r rest ih =>
    rw [List.foldl_cons]
    apply ih
    unfold updateItemStats
    cases hs : lookupStats acc r.item with
    | some st =>
      dsimp only
      have hkeys :
          (acc.map (fun q =>
            if q.1 == r.item then (q.1, addSaleToStats q.2 r) else q)).map
              Prod.fst
            = acc.map Prod.fst := by
        rw [List.map_map]
        apply List.map_congr_left
        intro q _
        simp only [Function.comp]
        split <;> rfl
      rw [hkeys]
      exact h
    | none =>
      dsimp only
      rw [List.map_append]
      apply List.Nodup.append h (List.nodup_singleton r.item)
      intro x hx hx2
      simp at hx2
      subst hx2
      exact lookupStats_none_not_mem acc r.item hs hx

/-- With pairwise-distinct keys, association-list membership determines
`lookupStats`. -/
theorem lookupStats_of_mem (acc : List (String × ItemStats)) (k : String)
    (st : ItemStats) (hnd : (acc.map Prod.fst).Nodup)
    (hmem : (k, st) ∈ acc) : lookupStats acc k = some st := by
  induction acc with
  | nil => simp at hmem
  | cons a l ih =>
    rw [lookupStats_cons]
    rw [List.map_cons, List.nodup_cons] at hnd
    cases hmem with
    | head => simp
    | tail _ htl =>
      cases hak : a.1 == k with
      | true =>
        exfalso
        have h1 : a.1 = k := by simpa using hak
        apply hnd.1
        rw [h1]
        exact List.mem_map.mpr ⟨(k, st), htl, rfl⟩
      | false => exact ih hnd.2 htl

/-- Every entry of the completed `itemStats` record carries exactly the
sums of quantity and of `price * quantity` over the sales with its key. -/
theorem itemStats_entry_sums (rows : List Sale) (k : String) (st : ItemStats)
    (h : (k, st) ∈ itemStatsOf rows) :
    st.totalQuantity
      = ((rows.filter (fun s => s.item == k)).map Sale.quantity).sum
    ∧ st.totalPrice
      = ((rows.filter (fun s => s.item == k)).map
          (fun s => s.price * (s.quantity : ℚ))).sum := by
  have hnd := itemStats_keys_nodup rows [] (by simp)
  have hlk : lookupStats (itemStatsOf rows) k = some st :=
    lookupStats_of_mem _ _ _ hnd h
  unfold itemStatsOf at hlk
  rw [lookupStats_foldl] at hlk
  have h0 : lookupStats ([] : List (String × ItemStats)) k = none := rfl
  rw [h0, stepFold_filter] at hlk
  by_cases hfil : rows.filter (fun s => s.item == k) = []
  · rw [if_pos hfil] at hlk
    simp at hlk
  · rw [if_neg hfil] at hlk
    simp only [Option.some.injEq] at hlk
    obtain ⟨-, h2, -, h4⟩ :=
      foldl_addSaleToStats_fields (rows.filter (fun s => s.item == k))
        (Option.getD none {})
    constructor
    · rw [← hlk, h2]
      simp
    · rw [← hlk, h4]
      simp

/-- The `slice` only selects elements of its input. -/
theorem mem_of_mem_sliceToLimit (limit : Option Int) (l : List α) (x : α)
    (h : x ∈ sliceToLimit limit l) : x ∈ l := by
  unfold sliceToLimit at h
  cases limit with
  | none => exact h
  | some n =>
    dsimp only at h
    by_cases h0 : n = 0
    · rw [if_pos h0] at h; exact h
    · rw [if_neg h0] at h
      by_cases hpos : 0 < n
      · rw [if_pos hpos] at h; exact List.mem_of_mem_take h
      · rw [if_neg hpos] at h; exact List.mem_of_mem_take h

/-- Sorting the aggregated items only reorders them. -/
theorem mem_of_mem_sortItemAggs (sb : Option TopSortBy) (l : List ItemAgg)
    (x : ItemAgg) (h : x ∈ sortItemAggs sb l) : x ∈ l := by
  unfold sortItemAggs at h
  cases sb with
  | none => exact (List.mem_insertionSort _).mp h
  | some t =>
    cases t with
    | TOTAL_SALES => exact (List.mem_insertionSort _).mp h
    | COUNT => exact (List.mem_insertionSort _).mp h
    | QUANTITY => exact (List.mem_insertionSort _).mp h

/-- Claim C8: in the ITEM grouping of `getTopAggregates`, every reported
group's average price equals the quantity-weighted average
`Σ (price·quantity) / Σ quantity` over exactly that item's rows of the
aggregated sales data, with the quotient defined as `0` when
`Σ quantity = 0`. -/
theorem groupedItem_weighted_average (p : TopAggregatesParams)
    (rows : List Sale) (g : ItemAgg)
    (hg : g ∈ sliceToLimit p.limit (sortItemAggs p.sortBy
      (aggregatedItemsOf rows))) :
    g.averagePrice
      = if 0 < ((rows.filter (fun s => s.item == g.group)).map
            Sale.quantity).sum
        then ((rows.filter (fun s => s.item == g.group)).map
            (fun s => s.price * (s.quantity : ℚ))).sum
          / ((((rows.filter (fun s => s.item == g.group)).map
              Sale.quantity).sum : ℚ))
        else 0 := by
  have hg2 : g ∈ aggregatedItemsOf rows :=
    mem_of_mem_sortItemAggs _ _ _ (mem_of_mem_sliceToLimit _ _ _ hg)
  unfold aggregatedItemsOf at hg2
  obtain ⟨q, hq, hgq⟩ := List.mem_map.mp hg2
  obtain ⟨hqty, hprice⟩ := itemStats_entry_sums rows q.1 q.2 (by
    rw [Prod.mk.eta]
    exact hq)
  rw [← hgq]
  simp only
  rw [← hqty, ← hprice]

/-- Witness for C8 on a synthetic dataset with two items of differing
price and quantity. -/
theorem groupedItem_weighted_average_witness :
    appleAgg.averagePrice
      = if 0 < ((rowsWeighted.filter
            (fun s => s.item == appleAgg.group)).map Sale.quantity).sum
        then ((rowsWeighted.filter (fun s => s.item == appleAgg.group)).map
            (fun s => s.price * (s.quantity : ℚ))).sum
          / ((((rowsWeighted.filter (fun s => s.item == appleAgg.group)).map
              Sale.quantity).sum : ℚ))
        else 0 :=
  groupedItem_weighted_average pItemA rowsWeighted appleAgg (by
    norm_num [sliceToLimit, sortItemAggs, aggregatedItemsOf, itemStatsOf,
      updateItemStats, lookupStats, addSaleToStats, rowsWeighted, mkSale,
      appleAgg, pItemA, List.insertionSort, List.orderedInsert, byKeyDesc,
      List.find?, Int.toNat, List.take])
